import Mathlib

/-!
# MiniMail Mail Classification & Extraction Engine — verification development

Shallow embedding of the message router and the per-carrier mergers of the
`minimail` integration (`imap_client.py`, `imap_client_amazon.py`,
`imap_client_usps.py`, `rules/usps_digest.py`, `rules/usps_delivered.py`).

Modelling conventions:
* Python dict-based carrier state becomes a Lean structure; an absent key is
  represented by the field's neutral value (`""`, `[]`, `none`, `0`), which is
  faithful because every read in the source uses `get` with that default.
* Message timestamps (`float` epoch seconds from the `Date` header) are
  modelled as `ℚ`; only ordering, equality and zero-tests are used.
* Text processing is modelled over the ASCII fragment: Python's `casefold`,
  `lower`, `upper`, `title`, `\w`, `\s` and `re.I` are implemented with the
  ASCII character classifiers, matching the source's behaviour on the ASCII
  strings it actually manipulates.
-/

namespace MiniMail

/-! ## Character and string utilities -/

/-- ASCII lower-casing of a character (model of Python `str.lower`/`casefold`). -/
def lcChar (c : Char) : Char := c.toLower

/-- ASCII upper-casing of a character (model of Python `str.upper`). -/
def ucChar (c : Char) : Char := c.toUpper

/-- Python regex `\w` (ASCII fragment): letters, digits, underscore. -/
def isWordChar (c : Char) : Bool := c.isAlphanum || c == '_'

/-- Python regex `\s` / `str.strip` whitespace (ASCII fragment). -/
def isWsChar (c : Char) : Bool :=
  c == ' ' || c == '\t' || c == '\n' || c == '\r' || c == '\x0b' || c == '\x0c'

/-- `leadsWith pat l`: `l` starts with `pat` (exact characters). -/
def leadsWith : List Char → List Char → Bool
  | [], _ => true
  | _ :: _, [] => false
  | p :: ps, c :: cs => p == c && leadsWith ps cs

/-- Substring containment on character lists (model of Python `in`). -/
def hasSubList (pat : List Char) : List Char → Bool
  | [] => leadsWith pat []
  | c :: cs => leadsWith pat (c :: cs) || hasSubList pat cs

/-- Substring containment on strings (model of Python `pat in hay`). -/
def hasSub (hay pat : String) : Bool := hasSubList pat.toList hay.toList

/-- Lower-case an entire string (model of Python `str.casefold`/`lower` on ASCII). -/
def lowerStr (s : String) : String := ⟨s.toList.map lcChar⟩

/-- Upper-case an entire string (model of Python `str.upper` on ASCII). -/
def upperStr (s : String) : String := ⟨s.toList.map ucChar⟩

/-- `startsWithStr s pat` models Python `s.startswith(pat)`. -/
def startsWithStr (s pat : String) : Bool := leadsWith pat.toList s.toList

/-- `endsWithStr s pat` models Python `s.endswith(pat)`. -/
def endsWithStr (s pat : String) : Bool :=
  leadsWith pat.toList.reverse s.toList.reverse

/-- Strip whitespace from both ends (model of Python `str.strip()`). -/
def trimWs (l : List Char) : List Char :=
  ((l.dropWhile isWsChar).reverse.dropWhile isWsChar).reverse

/-! ## Amazon extraction and merge (`imap_client_amazon.py`)

`parse_amazon_email` (rules/amazon.py) always returns a populated record with
all nine keys, so the `if not a` guard in `handle_amazon` never fires; the
extraction result is abstracted as the record of fields the merge loop reads.
`_msg_timestamp` and `_safe_subject` are pure functions of the raw message and
are carried as fields of the message abstraction. -/

/-- The fields of `parse_amazon_email`'s result that `handle_amazon` merges
(the `headline` key is not merged and is omitted). Empty string / empty list
is Python's `''` / `[]` (the "no value" sentinels of the merge loop). -/
structure AmazonExtraction where
  subject : String
  event : String
  items : List String
  track_url : String
  order_id : String
  shipment_id : String
  package_index : String
  eta : String
deriving DecidableEq, Repr

/-- The running `amazon` dict. An absent key reads as `''`/`[]`/`0.0`
(`amazon.get(k)`, `float(amazon.get('ts') or 0.0)`). -/
structure AmazonState where
  subject : String
  event : String
  items : List String
  track_url : String
  order_id : String
  shipment_id : String
  package_index : String
  eta : String
  ts : ℚ
deriving DecidableEq, Repr

/-- One Amazon email as seen by `handle_amazon`: its extraction
(`parse_amazon_email(msg)`), its timestamp (`_msg_timestamp(msg)`, `0` when the
`Date` header is unparsable) and its defensively decoded subject
(`_safe_subject(msg)`). -/
structure AmazonMsg where
  extraction : AmazonExtraction
  ts : ℚ
  safeSubject : String
deriving DecidableEq, Repr

/-- The empty `amazon` dict. -/
def emptyAmazon : AmazonState :=
  { subject := "", event := "", items := [], track_url := "", order_id := ""
    shipment_id := "", package_index := "", eta := "", ts := 0 }

/-- Body of the merge loop for one string field: `if v not in (None,'',[]):
if amazon.get(k) != v: amazon[k] = v`. The stored value after the iteration. -/
def fieldWrite (stored v : String) : String := if v = "" then stored else v

/-- Merge-loop write for the list-valued `items` field. -/
def listWrite (stored v : List String) : List String := if v = [] then stored else v

/-- Whether the merge-loop iteration set `updated = True` for one string field. -/
def fieldDelta (stored v : String) : Bool := v ≠ "" && stored ≠ v

/-- Whether the merge-loop iteration set `updated = True` for `items`. -/
def listDelta (stored v : List String) : Bool := v ≠ [] && stored ≠ v

/-- The whole field-merge loop of `handle_amazon` (writes, `ts` untouched). -/
def mergeFields (s : AmazonState) (a : AmazonExtraction) : AmazonState :=
  { subject := fieldWrite s.subject a.subject
    event := fieldWrite s.event a.event
    items := listWrite s.items a.items
    track_url := fieldWrite s.track_url a.track_url
    order_id := fieldWrite s.order_id a.order_id
    shipment_id := fieldWrite s.shipment_id a.shipment_id
    package_index := fieldWrite s.package_index a.package_index
    eta := fieldWrite s.eta a.eta
    ts := s.ts }

/-- The `updated` flag accumulated by the field-merge loop. -/
def anyDelta (s : AmazonState) (a : AmazonExtraction) : Bool :=
  fieldDelta s.subject a.subject || fieldDelta s.event a.event ||
  listDelta s.items a.items || fieldDelta s.track_url a.track_url ||
  fieldDelta s.order_id a.order_id || fieldDelta s.shipment_id a.shipment_id ||
  fieldDelta s.package_index a.package_index || fieldDelta s.eta a.eta

/-- Final safety net: `if not amazon.get('subject'): amazon['subject'] = _safe_subject(msg)`. -/
def backfillSubject (s : AmazonState) (subj : String) : AmazonState :=
  if s.subject = "" then { s with subject := subj } else s

/-- `handle_amazon(msg, amazon)`: timestamp-gated partial overwrite.
Returns the new state and the `updated` flag. -/
def handle_amazon (m : AmazonMsg) (s : AmazonState) : AmazonState × Bool :=
  if m.ts < s.ts then (s, false)
  else
    let s1 := mergeFields s m.extraction
    if m.ts ≠ 0 ∧ m.ts ≠ s.ts then
      (backfillSubject { s1 with ts := m.ts } m.safeSubject, true)
    else
      (backfillSubject s1 m.safeSubject, anyDelta s m.extraction)

/-- Modelled from the spec: "merging `t1` alone followed by being overwritten
only by `t2`'s non-empty fields" — the right-hand side of the spec's Amazon
freshness-monotonicity property, written from the spec's words so it can be
compared with what `handle_amazon` actually computes. -/
def overwriteNonEmptyFields (s : AmazonState) (a : AmazonExtraction) : AmazonState :=
  { subject := if a.subject ≠ "" then a.subject else s.subject
    event := if a.event ≠ "" then a.event else s.event
    items := if a.items ≠ [] then a.items else s.items
    track_url := if a.track_url ≠ "" then a.track_url else s.track_url
    order_id := if a.order_id ≠ "" then a.order_id else s.order_id
    shipment_id := if a.shipment_id ≠ "" then a.shipment_id else s.shipment_id
    package_index := if a.package_index ≠ "" then a.package_index else s.package_index
    eta := if a.eta ≠ "" then a.eta else s.eta
    ts := s.ts }

/-- Older Amazon message (timestamp 1) carrying an ETA. -/
def c4msg1 : AmazonMsg :=
  { extraction := { subject := "S1", event := "", items := [], track_url := ""
                    order_id := "", shipment_id := "", package_index := "", eta := "E1" }
    ts := 1, safeSubject := "S1" }

/-- Newer Amazon message (timestamp 2) with no ETA in its extraction. -/
def c4msg2 : AmazonMsg :=
  { extraction := { subject := "S2", event := "", items := [], track_url := ""
                    order_id := "", shipment_id := "", package_index := "", eta := "" }
    ts := 2, safeSubject := "S2" }

/-- A stale Amazon message (timestamp 1). -/
def c5msg : AmazonMsg :=
  { extraction := { subject := "A", event := "shipped", items := ["x"], track_url := ""
                    order_id := "", shipment_id := "", package_index := "", eta := "W" }
    ts := 1, safeSubject := "A" }

/-- A state already stamped with a fresher timestamp 2. -/
def c5state : AmazonState := { emptyAmazon with subject := "Old", ts := 2 }

/-! ## USPS digest extractor (`rules/usps_digest.py`)

The regex tables of the source are implemented as bespoke scanners over
`List Char`, reproducing Python `re` semantics (leftmost search, greedy
quantifiers, non-overlapping `finditer`, ASCII `re.I`) for the concrete
patterns involved. Matchers return the remaining input after the match end.
Scanning loops consume at least one character per step and use an explicit
fuel initialised to `length + 1`, which therefore never runs out. -/

/-- Start-of-match word boundary: the previous character (if any) is not `\w`. -/
def boundaryOK : Option Char → Bool
  | none => true
  | some c => !isWordChar c

/-- End-of-match word boundary: the next character (if any) is not `\w`. -/
def tailBoundary : List Char → Bool
  | [] => true
  | c :: _ => !isWordChar c

/-- Case-insensitive literal match; returns the rest after the literal. -/
def matchLitCI : List Char → List Char → Option (List Char)
  | [], l => some l
  | _ :: _, [] => none
  | p :: ps, c :: cs => if lcChar c == lcChar p then matchLitCI ps cs else none

/-- `\s*` (maximal). -/
def ws0 (l : List Char) : List Char := l.dropWhile isWsChar

/-- `\s+` (maximal, at least one). -/
def ws1 : List Char → Option (List Char)
  | [] => none
  | c :: cs => if isWsChar c then some (cs.dropWhile isWsChar) else none

/-- Digits of a numeral to its value (model of Python `int`). -/
def natOfDigits (ds : List Char) : Nat := ds.foldl (fun n c => n * 10 + (c.toNat - 48)) 0

/-- Leftmost-match search: try the matcher at every position. -/
def searchFirst {α : Type} (try1 : Option Char → List Char → Option α) :
    Option Char → List Char → Option α
  | _, [] => none
  | prev, c :: cs =>
      match try1 prev (c :: cs) with
      | some a => some a
      | none => searchFirst try1 (some c) cs

/-- Non-overlapping `finditer`: after a match, scanning resumes at its end.
(For every pattern used here, no match can begin at the very first character
after a previous match, so the boundary context there is immaterial.) -/
def scanIter {α : Type} (try1 : Option Char → List Char → Option (α × List Char)) :
    Nat → Option Char → List Char → List α
  | 0, _, _ => []
  | _ + 1, _, [] => []
  | fuel + 1, prev, c :: cs =>
      match try1 prev (c :: cs) with
      | some (a, rest) => a :: scanIter try1 fuel none rest
      | none => scanIter try1 fuel (some c) cs

/-- `finditer` recording match start offsets (for `_split_sections`). -/
def findStartsIter (try1 : List Char → Option (List Char)) :
    Nat → Nat → List Char → List Nat
  | 0, _, _ => []
  | _ + 1, _, [] => []
  | fuel + 1, i, c :: cs =>
      match try1 (c :: cs) with
      | some rest => i :: findStartsIter try1 fuel (i + ((c :: cs).length - rest.length)) rest
      | none => findStartsIter try1 fuel (i + 1) cs

/-- `_RE_COUNT_ITEMS`: one attempt at `\b(\d+)\s*item(?:s)?\b` (re.I). -/
def tryCountItems (prev : Option Char) (l : List Char) : Option Nat :=
  if !boundaryOK prev then none
  else
    let (ds, r1) := l.span Char.isDigit
    if ds = [] then none
    else
      match matchLitCI "item".toList (ws0 r1) with
      | none => none
      | some r3 =>
          match r3 with
          | [] => some (natOfDigits ds)
          | c :: r4 =>
              if lcChar c == 's' then
                if tailBoundary r4 then some (natOfDigits ds) else none
              else if !isWordChar c then some (natOfDigits ds) else none

/-- `_RE_COUNT_ITEMS.search`. -/
def countItemsSearch (l : List Char) : Option Nat := searchFirst tryCountItems none l

/-- `_RE_TRACK`: one attempt at `\b9\d{15,}\b`. -/
def tryTrack (prev : Option Char) (l : List Char) : Option (Unit × List Char) :=
  if !boundaryOK prev then none
  else
    match l with
    | '9' :: cs =>
        let (ds, rest) := cs.span Char.isDigit
        if 15 ≤ ds.length && tailBoundary rest then some ((), rest) else none
    | _ => none

/-- `_RE_TRACK.findall` (match count is all that is used). -/
def trackMatches (l : List Char) : List Unit := scanIter tryTrack (l.length + 1) none l

/-- The character class `[A-Z0-9 .,&/&\-]` under `re.I`. -/
def isFromClassChar (c : Char) : Bool :=
  c.isAlpha || c.isDigit || c == ' ' || c == '.' || c == ',' || c == '&' || c == '/' || c == '-'

/-- `_FROM_COLON_RX`: one attempt at `\bFROM\s*[:：]\s*([A-Z0-9 .,&/&\-]{2,200})`
(re.I). The interplay of the greedy `\s*` with the space inside the capture
class is reproduced for the whitespace shapes that occur in the
whitespace-collapsed text this pattern is applied to. -/
def tryFromColon (prev : Option Char) (l : List Char) : Option (List Char × List Char) :=
  if !boundaryOK prev then none
  else
    match matchLitCI "from".toList l with
    | none => none
    | some r1 =>
        match ws0 r1 with
        | [] => none
        | c :: r3 =>
            if c == ':' || c == '：' then
              let (sp2, r4) := r3.span isWsChar
              let (cls, r5) := r4.span isFromClassChar
              if 2 ≤ cls.length then some (cls.take 200, cls.drop 200 ++ r5)
              else if cls.length == 1 && sp2.getLast? == some ' ' then
                some (' ' :: cls, r5)
              else if cls.length == 0 && sp2.reverse.take 2 == [' ', ' '] then
                some ([' ', ' '], r5)
              else none
            else none

/-- All strict `FROM:` captures in a text (`_FROM_COLON_RX.finditer`). -/
def fromMatches (l : List Char) : List (List Char) :=
  scanIter tryFromColon (l.length + 1) none l

/-- The capture class `[^<>\r\n]`. -/
def isCapChar (c : Char) : Bool := !(c == '<' || c == '>' || c == '\r' || c == '\n')

/-- One attempt at `id=["\x27]ID["\x27][^>]*>\s*([^<>\r\n]+)` (re.I), the shape of
`_RE_MAIL_FROM_SPAN` and `_RE_SHIPPER_SPAN`. -/
def trySpanId (idLit : List Char) (_prev : Option Char) (l : List Char) :
    Option (List Char × List Char) :=
  match matchLitCI "id=".toList l with
  | none => none
  | some r1 =>
      match r1 with
      | [] => none
      | q1 :: r2 =>
          if q1 == '"' || q1 == '\'' then
            match matchLitCI idLit r2 with
            | none => none
            | some r3 =>
                match r3 with
                | [] => none
                | q2 :: r4 =>
                    if q2 == '"' || q2 == '\'' then
                      match (r4.span (fun c => !(c == '>'))).2 with
                      | '>' :: r6 =>
                          let (sp, r7) := r6.span isWsChar
                          let (cap, r8) := r7.span isCapChar
                          if 1 ≤ cap.length then some (cap, r8)
                          else
                            match sp.getLast? with
                            | some c0 => if isCapChar c0 then some ([c0], r7) else none
                            | none => none
                      | _ => none
                    else none
          else none

/-- `_RE_MAIL_FROM_SPAN.finditer` over the raw HTML. -/
def campaignSpanMatches (html : List Char) : List (List Char) :=
  scanIter (trySpanId "campaign-from-span-id".toList) (html.length + 1) none html

/-- `_RE_SHIPPER_SPAN.finditer` over the raw HTML. -/
def shipperSpanMatches (html : List Char) : List (List Char) :=
  scanIter (trySpanId "pra-shipper-name-id".toList) (html.length + 1) none html

/-- One attempt at `id="(?:BG|GEN[^"]*)"\s*>\s*(\d+)` (re.I), the shape of
`_RE_MAIL_BIG` and `_RE_PKG_BIG`. -/
def tryBigCounter (bgLit genLit : List Char) (_prev : Option Char) (l : List Char) :
    Option Nat :=
  match matchLitCI ['i', 'd', '=', '"'] l with
  | none => none
  | some r1 =>
      let common : List Char → Option Nat := fun r =>
        match r with
        | '"' :: r2 =>
            match ws0 r2 with
            | '>' :: r4 =>
                let (ds, _) := (ws0 r4).span Char.isDigit
                if ds = [] then none else some (natOfDigits ds)
            | _ => none
        | _ => none
      let alt : Option Nat :=
        match matchLitCI genLit r1 with
        | none => none
        | some r2 => common ((r2.span (fun c => !(c == '"'))).2)
      match matchLitCI bgLit r1 with
      | some rA =>
          match common rA with
          | some n => some n
          | none => alt
      | none => alt

/-- `_RE_MAIL_BIG.search` over the raw HTML. -/
def searchBigMail (html : List Char) : Option Nat :=
  searchFirst (tryBigCounter "bg-total-mailpieces".toList "total-mailpieces".toList) none html

/-- `_RE_PKG_BIG.search` over the raw HTML. -/
def searchBigPkg (html : List Char) : Option Nat :=
  searchFirst (tryBigCounter "bg-total-packages".toList "total-packages".toList) none html

/-- One attempt at `\bLEAD(?:TAIL)?\s+Expected\s+Today\b[^0-9]{0,20}(\d+)` (re.I),
the shape of the mail/packages "Expected Today" count fallbacks. -/
def tryExpectedToday (lead optTail : List Char) (prev : Option Char) (l : List Char) :
    Option Nat :=
  if !boundaryOK prev then none
  else
    match matchLitCI lead l with
    | none => none
    | some r1 =>
        let r1' := match matchLitCI optTail r1 with
          | some r => r
          | none => r1
        match ws1 r1' with
        | none => none
        | some r2 =>
            match matchLitCI "expected".toList r2 with
            | none => none
            | some r3 =>
                match ws1 r3 with
                | none => none
                | some r4 =>
                    match matchLitCI "today".toList r4 with
                    | none => none
                    | some r5 =>
                        if !tailBoundary r5 then none
                        else
                          let nd := (r5.takeWhile (fun c => !c.isDigit)).length
                          if 20 < nd then none
                          else
                            let (ds, _) := (r5.drop nd).span Char.isDigit
                            if ds = [] then none else some (natOfDigits ds)

/-- `Mail(?:pieces)?\s+Expected\s+Today` fallback search. -/
def searchMailToday (l : List Char) : Option Nat :=
  searchFirst (tryExpectedToday "mail".toList "pieces".toList) none l

/-- `Packages?\s+Expected\s+Today` fallback search. -/
def searchPkgsToday (l : List Char) : Option Nat :=
  searchFirst (tryExpectedToday "package".toList "s".toList) none l

/-- Bucket section keys of `_SEC`. -/
inductive SecKey : Type
  | today
  | days12
  | awaiting
  | outbound
deriving DecidableEq, Repr

/-- The four bucket text segments produced by `_split_sections`
(missing sections are the empty segment). -/
structure Sections where
  expected_today : List Char
  expected_1_2_days : List Char
  awaiting_from_sender : List Char
  outbound : List Char
deriving DecidableEq, Repr

/-- Dict assignment `out[key] = seg`. -/
def Sections.setKey (s : Sections) : SecKey → List Char → Sections
  | .today, v => { s with expected_today := v }
  | .days12, v => { s with expected_1_2_days := v }
  | .awaiting, v => { s with awaiting_from_sender := v }
  | .outbound, v => { s with outbound := v }

/-- `Expected\s+Today` (re.I). -/
def trySecToday (l : List Char) : Option (List Char) := do
  let r1 ← matchLitCI "expected".toList l
  let r2 ← ws1 r1
  matchLitCI "today".toList r2

/-- `Expected\s+1[\-–—]\s*2\s+Days` (re.I). -/
def trySec12 (l : List Char) : Option (List Char) := do
  let r1 ← matchLitCI "expected".toList l
  let r2 ← ws1 r1
  match r2 with
  | '1' :: d :: r4 =>
      if d == '-' || d == '–' || d == '—' then
        match ws0 r4 with
        | '2' :: r6 => do
            let r7 ← ws1 r6
            matchLitCI "days".toList r7
        | _ => none
      else none
  | _ => none

/-- `Awaiting\s+From\s+Sender` (re.I). -/
def trySecAwaiting (l : List Char) : Option (List Char) := do
  let r1 ← matchLitCI "awaiting".toList l
  let r2 ← ws1 r1
  let r3 ← matchLitCI "from".toList r2
  let r4 ← ws1 r3
  matchLitCI "sender".toList r4

/-- `Outbound` (re.I). -/
def trySecOutbound (l : List Char) : Option (List Char) :=
  matchLitCI "outbound".toList l

/-- All `(start, key)` hits of the four section-header regexes. -/
def sectionHits (flat : List Char) : List (Nat × SecKey) :=
  let n := flat.length + 1
  ((findStartsIter trySecToday n 0 flat).map (fun p => (p, SecKey.today))) ++
  ((findStartsIter trySec12 n 0 flat).map (fun p => (p, SecKey.days12))) ++
  ((findStartsIter trySecAwaiting n 0 flat).map (fun p => (p, SecKey.awaiting))) ++
  ((findStartsIter trySecOutbound n 0 flat).map (fun p => (p, SecKey.outbound)))

/-- Stable insertion by start position (`hits.sort()`; positions are distinct
because the four header texts are mutually exclusive at a given start). -/
def insertHit (x : Nat × SecKey) : List (Nat × SecKey) → List (Nat × SecKey)
  | [] => [x]
  | y :: ys => if y.1 ≤ x.1 then y :: insertHit x ys else x :: y :: ys

/-- Insertion sort of the hit list by position. -/
def sortHits : List (Nat × SecKey) → List (Nat × SecKey)
  | [] => []
  | x :: xs => insertHit x (sortHits xs)

/-- `out[key] = flat[pos:end]` over the sorted hits; each segment runs to the
next hit or to the end of the text. -/
def assignSegs (flat : List Char) : List (Nat × SecKey) → Sections → Sections
  | [], out => out
  | (pos, k) :: rest, out =>
      let e := match rest with
        | (p2, _) :: _ => p2
        | [] => flat.length
      assignSegs flat rest (out.setKey k ((flat.drop pos).take (e - pos)))

/-- `_split_sections`. -/
def _split_sections (flat : List Char) : Sections :=
  assignSegs flat (sortHits (sectionHits flat)) ⟨[], [], [], []⟩

/-- `<[^>]+>` body: after `<`, at least one non-`>` then `>`. -/
def dropTagCont : List Char → Option (List Char)
  | [] => none
  | '>' :: rest => some rest
  | _ :: rest => dropTagCont rest

/-- Attempt a tag match right after the `<`. -/
def dropTag : List Char → Option (List Char)
  | [] => none
  | '>' :: _ => none
  | _ :: rest => dropTagCont rest

/-- `re.sub(r"<[^>]+>", " ", s)`. -/
def stripTagsGo : Nat → List Char → List Char
  | 0, l => l
  | _ + 1, [] => []
  | fuel + 1, c :: cs =>
      if c == '<' then
        match dropTag cs with
        | some r => ' ' :: stripTagsGo fuel r
        | none => '<' :: stripTagsGo fuel cs
      else c :: stripTagsGo fuel cs

/-- `re.sub(r"\s+", " ", s)`. -/
def collapseAllGo : Nat → List Char → List Char
  | 0, l => l
  | _ + 1, [] => []
  | fuel + 1, c :: cs =>
      if isWsChar c then ' ' :: collapseAllGo fuel ((c :: cs).dropWhile isWsChar)
      else c :: collapseAllGo fuel cs

/-- `_strip_tags`: flatten HTML to whitespace-normalised text. -/
def _strip_tags (html : List Char) : List Char :=
  let t := stripTagsGo (html.length + 1) html
  trimWs (collapseAllGo (t.length + 1) t)

/-- `_clean_label` step: `^\s*FROM\s*[:：]\s*` (anchored, so at most one substitution). -/
def stripFromLead (l : List Char) : List Char :=
  match matchLitCI "from".toList (ws0 l) with
  | none => l
  | some r2 =>
      match ws0 r2 with
      | c :: r3 => if c == ':' || c == '：' then ws0 r3 else l
      | [] => l

/-- `_clean_label` step: remove every `\bLearn more about your mail\b` (re.I). -/
def removeLearnMoreGo : Nat → Option Char → List Char → List Char
  | 0, _, l => l
  | _ + 1, _, [] => []
  | fuel + 1, prev, c :: cs =>
      if boundaryOK prev then
        match matchLitCI "learn more about your mail".toList (c :: cs) with
        | some r =>
            if tailBoundary r then removeLearnMoreGo fuel (some 'l') r
            else c :: removeLearnMoreGo fuel (some c) cs
        | none => c :: removeLearnMoreGo fuel (some c) cs
      else c :: removeLearnMoreGo fuel (some c) cs

/-- Wrapper for `removeLearnMoreGo`. -/
def removeLearnMore (l : List Char) : List Char := removeLearnMoreGo (l.length + 1) none l

/-- `_clean_label` step: truncate at `\bOutbound\b.*$` (re.I; label strings
contain no newline, so `.*$` reaches the end). -/
def truncOutboundGo : Option Char → List Char → List Char
  | _, [] => []
  | prev, c :: cs =>
      if boundaryOK prev then
        match matchLitCI "outbound".toList (c :: cs) with
        | some r => if tailBoundary r then [] else c :: truncOutboundGo (some c) cs
        | none => c :: truncOutboundGo (some c) cs
      else c :: truncOutboundGo (some c) cs

/-- Does `\d+\s+item[s]?\b.*$` match at this position (after a `\b`)? -/
def itemsTailAt (l : List Char) : Bool :=
  let (ds, r1) := l.span Char.isDigit
  if ds = [] then false
  else
    match ws1 r1 with
    | none => false
    | some r2 =>
        match matchLitCI "item".toList r2 with
        | none => false
        | some r3 =>
            match r3 with
            | [] => true
            | c :: r4 => if lcChar c == 's' then tailBoundary r4 else !isWordChar c

/-- `_clean_label` step: truncate at `\b\d+\s+item[s]?\b.*$` (re.I). -/
def truncItemsGo : Option Char → List Char → List Char
  | _, [] => []
  | prev, c :: cs =>
      if boundaryOK prev && itemsTailAt (c :: cs) then []
      else c :: truncItemsGo (some c) cs

/-- `_clean_label` step: delete every run of six or more digits (`\d{6,}`). -/
def removeLongDigitsGo : Nat → List Char → List Char
  | 0, l => l
  | _ + 1, [] => []
  | fuel + 1, c :: cs =>
      if c.isDigit then
        let (ds, rest) := (c :: cs).span Char.isDigit
        if 6 ≤ ds.length then removeLongDigitsGo fuel rest
        else ds ++ removeLongDigitsGo fuel rest
      else c :: removeLongDigitsGo fuel cs

/-- Wrapper for `removeLongDigitsGo`. -/
def removeLongDigits (l : List Char) : List Char := removeLongDigitsGo (l.length + 1) l

/-- `_clean_label` step: drop a trailing bare `FROM` (`\bFROM\b$`, re.I). -/
def stripTrailFrom (l : List Char) : List Char :=
  match l.reverse with
  | m :: o :: r :: f :: rest =>
      if lcChar m == 'm' && lcChar o == 'o' && lcChar r == 'r' && lcChar f == 'f' then
        match rest with
        | [] => []
        | p :: _ => if !isWordChar p then rest.reverse else l
      else l
  | _ => l

/-- The trailing-punctuation class `[•–—\-:;,]`. -/
def isTrailPunct (c : Char) : Bool :=
  c == '•' || c == '–' || c == '—' || c == '-' || c == ':' || c == ';' || c == ','

/-- `_clean_label` step: strip `[•–—\-:;,]+$`. -/
def stripTrailPunct (l : List Char) : List Char :=
  (l.reverse.dropWhile isTrailPunct).reverse

/-- `_clean_label` step: `\s{2,}` → a single space (runs of exactly one
whitespace character are left as they are). -/
def collapseWs2Go : Nat → List Char → List Char
  | 0, l => l
  | _ + 1, [] => []
  | fuel + 1, c :: cs =>
      if isWsChar c then
        match cs with
        | d :: _ =>
            if isWsChar d then ' ' :: collapseWs2Go fuel ((c :: cs).dropWhile isWsChar)
            else c :: collapseWs2Go fuel cs
        | [] => [c]
      else c :: collapseWs2Go fuel cs

/-- Wrapper for `collapseWs2Go`. -/
def collapseWs2 (l : List Char) : List Char := collapseWs2Go (l.length + 1) l

/-- The class stripped by `.strip(" ,")`. -/
def isSpComma (c : Char) : Bool := c == ' ' || c == ','

/-- `.strip(" ,")`. -/
def stripSpComma (l : List Char) : List Char :=
  ((l.dropWhile isSpComma).reverse.dropWhile isSpComma).reverse

/-- Python `str.title` on ASCII: upper-case a letter after a non-letter,
lower-case a letter after a letter. -/
def titleGo : Bool → List Char → List Char
  | _, [] => []
  | prevAlpha, c :: cs =>
      if c.isAlpha then (if prevAlpha then c.toLower else c.toUpper) :: titleGo true cs
      else c :: titleGo false cs

/-- `_smart_case`: Title Case if the string is all caps, otherwise unchanged. -/
def _smart_case (l : List Char) : List Char :=
  if l.any Char.isUpper && !l.any Char.isLower then titleGo false l else l

/-- `_clean_label`: normalise one extracted sender label. -/
def _clean_label (name : String) : String :=
  let n := name.toList
  let n := stripFromLead n
  let n := removeLearnMore n
  let n := truncOutboundGo none n
  let n := truncItemsGo none n
  let n := removeLongDigits n
  let n := stripTrailFrom n
  let n := trimWs (stripTrailPunct n)
  let n := stripSpComma (collapseWs2 n)
  ⟨_smart_case n⟩

/-- Worker for `_dedup_keep_order` carrying the `seen` set. -/
def dedupGo (seen : List String) : List String → List String
  | [] => []
  | x :: xs => if x = "" || seen.contains x then dedupGo seen xs else x :: dedupGo (x :: seen) xs

/-- `_dedup_keep_order`: drop empties and duplicates, preserving order. -/
def _dedup_keep_order (l : List String) : List String := dedupGo [] l

/-- The cleaned, non-empty strict `FROM:` names of a segment. -/
def fromNames (seg : List Char) : List String :=
  ((fromMatches seg).map (fun c => _clean_label ⟨c⟩)).filter (fun x => x ≠ "")

/-- `_bucket_count_and_names`: count and sample names for one bucket segment,
with priority explicit counter → strict `FROM:` names → tracking-number count. -/
def _bucket_count_and_names (seg : String) : Nat × List String :=
  let s := seg.toList
  let names := fromNames s
  match countItemsSearch s with
  | some n => (n, (_dedup_keep_order names).take 5)
  | none =>
      if names = [] then ((trackMatches s).length, [])
      else ((_dedup_keep_order names).length, (_dedup_keep_order names).take 5)

/-- The generic USPS brand labels removed from `mail_from` (upper-cased, as
compared by the source; `USPSIS` is deliberately not here). -/
def blacklistBrands : List String :=
  ["USPS", "USPS INFORMED DELIVERY", "UNITED STATES POSTAL SERVICE",
   "INFORMED DELIVERY", "U.S. POSTAL SERVICE"]

/-- `" ".join(...)` over character lists. -/
def joinSp : List (List Char) → List Char
  | [] => []
  | [x] => x
  | x :: xs => x ++ ' ' :: joinSp xs

/-- `_mail_from`: letter senders — structured campaign spans first, else the
global strict `FROM:` matches minus those found inside package sections; brand
noise removed; NOT deduplicated; capped at 10. -/
def _mail_from (html flat : List Char) (secs : Sections) : List String :=
  let spans := ((campaignSpanMatches html).map (fun c => _clean_label ⟨c⟩)).filter
    (fun x => x ≠ "")
  let out :=
    if spans = [] then
      let pkgText := joinSp [secs.expected_today, secs.expected_1_2_days,
        secs.awaiting_from_sender, secs.outbound]
      let pkgFroms := (fromMatches pkgText).map (fun c => _clean_label ⟨c⟩)
      ((fromMatches flat).map (fun c => _clean_label ⟨c⟩)).filter
        (fun nm => nm ≠ "" && !pkgFroms.contains nm)
    else spans
  (out.filter (fun x => !blacklistBrands.contains (upperStr x))).take 10

/-- `_packages_from`: package shipper names — structured shipper spans first,
else strict `FROM:` matches per bucket segment; deduplicated; capped at 10. -/
def _packages_from (html : List Char) (secs : Sections) : List String :=
  let spans := ((shipperSpanMatches html).map (fun c => _clean_label ⟨c⟩)).filter
    (fun x => x ≠ "")
  let names :=
    if spans = [] then
      (([secs.expected_today, secs.expected_1_2_days, secs.awaiting_from_sender,
        secs.outbound].map fromNames)).flatten
    else spans
  (_dedup_keep_order names).take 10

/-- One bucket: a count and up to a handful of sample sender names
(the dict `{"count": ..., "from": [...]}`; `from` is a Lean keyword, hence `frm`). -/
structure Bucket where
  count : Nat
  frm : List String
deriving DecidableEq, Repr

/-- The four-key bucket map. -/
structure Buckets where
  expected_today : Bucket
  expected_1_2_days : Bucket
  awaiting_from_sender : Bucket
  outbound : Bucket
deriving DecidableEq, Repr

/-- `{count, urls, files}` returned by the image extractor. -/
structure ImageSet where
  count : Nat
  urls : List String
  files : List String
deriving DecidableEq, Repr

/-- The empty image set. -/
def emptyImages : ImageSet := ⟨0, [], []⟩

/-- The record returned by `parse_usps_digest`. -/
structure DigestParse where
  mail_expected : Nat
  pkgs_expected : Nat
  mail_from : List String
  pkgs_from : List String
  tracking_urls : List String
  dashboard_url : String
  buckets : Buckets
  mail_images : ImageSet
deriving DecidableEq, Repr

/-- `_DASHBOARD_URL` / `_DASH`: the fixed USPS dashboard link. -/
def DASHBOARD_URL : String := "https://informeddelivery.usps.com/portal/dashboard"

/-- Build one bucket from its segment. -/
def bucketOf (seg : List Char) : Bucket :=
  let r := _bucket_count_and_names ⟨seg⟩
  ⟨r.1, r.2⟩

/-- The `awaiting_from_sender` enrichment loop: append fresh names from
`pkgs_from`, checking the `min(count, 5)` stop condition after each element. -/
def enrichLoop (m : Nat) : List String → List String → List String
  | names, [] => names
  | names, nm :: rest =>
      let names' := if names.contains nm then names else names ++ [nm]
      if m ≤ names'.length then names' else enrichLoop m names' rest

/-- Enrich the `awaiting_from_sender` bucket when its count exceeds the number
of names it was given. -/
def enrichAwaiting (b : Buckets) (pkgs : List String) : Buckets :=
  let aw := b.awaiting_from_sender
  if aw.frm.length < aw.count then
    { b with awaiting_from_sender :=
        { aw with frm := enrichLoop (min aw.count 5) aw.frm pkgs } }
  else b

/-- Count-parity padding: append `"Envelope"` entries until `mail_from` is as
long as `mail_expected` (no truncation in the other direction). -/
def padMailFrom (me : Nat) (mf : List String) : List String :=
  if mf.length < me then mf ++ List.replicate (me - mf.length) "Envelope" else mf

/-- `parse_usps_digest`: the full digest extraction, as a function of the
concatenated HTML and plaintext bodies (`_extract_parts`). The inline-image
extraction (`_save_mail_images`) performs filesystem writes and is modelled
as an opaque per-message input `imgs`. -/
def parse_usps_digest (htmlS textS : String) (imgs : ImageSet) : DigestParse :=
  let html := htmlS.toList
  let text := textS.toList
  let flat := _strip_tags html
  let me0 : Option Nat :=
    match searchBigMail html with
    | some n => some n
    | none =>
        match searchMailToday flat with
        | some n => some n
        | none => searchMailToday text
  let pe0 : Option Nat :=
    match searchBigPkg html with
    | some n => some n
    | none =>
        match searchPkgsToday flat with
        | some n => some n
        | none => searchPkgsToday text
  let secs := _split_sections flat
  let b0 : Buckets := ⟨bucketOf secs.expected_today, bucketOf secs.expected_1_2_days,
    bucketOf secs.awaiting_from_sender, bucketOf secs.outbound⟩
  let mailFrom0 := _mail_from html flat secs
  let pkgsFrom := _packages_from html secs
  let b1 := enrichAwaiting b0 pkgsFrom
  let me := match me0 with
    | some n => n
    | none => (mailFrom0.filter (fun x => x ≠ "")).length
  let pe := match pe0 with
    | some n => n
    | none => b1.expected_today.count + b1.expected_1_2_days.count +
        b1.awaiting_from_sender.count + b1.outbound.count
  { mail_expected := me
    pkgs_expected := pe
    mail_from := padMailFrom me mailFrom0
    pkgs_from := _dedup_keep_order pkgsFrom
    tracking_urls := []
    dashboard_url := DASHBOARD_URL
    buckets := b1
    mail_images := imgs }

/-! ## USPS delivered extractor (`rules/usps_delivered.py`)

`_parse_subject_date` uses `datetime.now().year`; the wall-clock year at parse
time is passed explicitly as a parameter. -/

/-- The record returned by `parse_usps_delivered`. -/
structure DeliveredParse where
  subject : String
  delivered : Bool
  date_label : String
  month : String
  day : Nat
  year : Nat
  dashboard_url : String
deriving DecidableEq, Repr

/-- Python `str.capitalize` on ASCII. -/
def capitalizeStr (s : String) : String :=
  match s.toList with
  | [] => ""
  | c :: cs => ⟨c.toUpper :: cs.map Char.toLower⟩

/-- The fixed 12-entry `MONTHS` table: `MONTHS.get(cap, rawAbbr)`. -/
def monthsLookup (cap rawAbbr : String) : String :=
  if cap = "Jan" then "January" else if cap = "Feb" then "February"
  else if cap = "Mar" then "March" else if cap = "Apr" then "April"
  else if cap = "May" then "May" else if cap = "Jun" then "June"
  else if cap = "Jul" then "July" else if cap = "Aug" then "August"
  else if cap = "Sep" then "September" else if cap = "Oct" then "October"
  else if cap = "Nov" then "November" else if cap = "Dec" then "December"
  else rawAbbr

/-- One attempt at `SUBJECT_RX`:
`Your Mail Was Delivered\s+\w+,\s+([A-Za-z]{3})\s+(\d{1,2})` (re.I). -/
def tryDeliveredDate (_prev : Option Char) (l : List Char) : Option (String × Nat) :=
  match matchLitCI "your mail was delivered".toList l with
  | none => none
  | some r1 =>
      match ws1 r1 with
      | none => none
      | some r2 =>
          let (w, r3) := r2.span isWordChar
          if w = [] then none
          else
            match r3 with
            | ',' :: r4 =>
                match ws1 r4 with
                | none => none
                | some r5 =>
                    match r5 with
                    | a :: b :: c :: r6 =>
                        if a.isAlpha && b.isAlpha && c.isAlpha then
                          match ws1 r6 with
                          | none => none
                          | some r7 =>
                              let (ds, _) := r7.span Char.isDigit
                              if ds = [] then none
                              else some (⟨[a, b, c]⟩, natOfDigits (ds.take 2))
                        else none
                    | _ => none
            | _ => none

/-- `SUBJECT_RX.search` over a subject line. -/
def deliveredDateSearch (subj : List Char) : Option (String × Nat) :=
  searchFirst tryDeliveredDate none subj

/-- `parse_usps_delivered`: parse the decoded subject of a "Your Mail Was
Delivered" email, with the wall-clock year passed explicitly. -/
def parse_usps_delivered (subjRaw : String) (year : Nat) : DeliveredParse :=
  let subj : String := ⟨trimWs subjRaw.toList⟩
  match deliveredDateSearch subj.toList with
  | none =>
      { subject := subj, delivered := true, date_label := "", month := ""
        day := 0, year := 0, dashboard_url := DASHBOARD_URL }
  | some (abbr, day) =>
      let monFull := monthsLookup (capitalizeStr abbr) abbr
      { subject := subj, delivered := true
        date_label := "today, " ++ monFull ++ " " ++ toString day ++ "!"
        month := monFull, day := day, year := year
        dashboard_url := DASHBOARD_URL }

/-! ## USPS state and handlers (`imap_client_usps.py`) -/

/-- The nested `last_delivered` payload. -/
structure DeliveredRecord where
  subject : String
  delivered : Bool
  date_label : String
  month : String
  day : Nat
  year : Nat
  dashboard_url : String
deriving DecidableEq, Repr

/-- The running `usps` dict. Absent keys read as the neutral values used by
the handlers' `get(...)` defaults; `last_delivered` is `none` until a
Delivered email is merged. -/
structure UspsState where
  subject : String
  type : String
  dashboard_url : String
  mail_expected : Option Nat
  pkgs_expected : Option Nat
  mail_from : List String
  pkgs_from : List String
  buckets : Buckets
  mail_images : ImageSet
  images : List String
  last_delivered : Option DeliveredRecord
deriving DecidableEq, Repr

/-- An empty bucket (`{"count": 0, "from": []}`). -/
def emptyBucket : Bucket := ⟨0, []⟩

/-- The empty `usps` dict. -/
def emptyUsps : UspsState :=
  { subject := "", type := "", dashboard_url := "", mail_expected := none
    pkgs_expected := none, mail_from := [], pkgs_from := []
    buckets := ⟨emptyBucket, emptyBucket, emptyBucket, emptyBucket⟩
    mail_images := emptyImages, images := [], last_delivered := none }

/-- One raw message as seen by the router and the USPS handlers: decoded
`From` and `Subject` headers, the Amazon view of the message, the
concatenated HTML and plaintext bodies consumed by `parse_usps_digest`, and
the abstracted inline-image extraction result. -/
structure RouterMsg where
  frm : String
  subject : String
  amz : AmazonMsg
  digestHtml : String
  digestText : String
  imgs : ImageSet
deriving DecidableEq, Repr

/-- `handle_usps_delivered(msg, usps)`: write subject/type/dashboard and the
full nested `last_delivered` record; digest fields untouched. -/
def handle_usps_delivered (year : Nat) (m : RouterMsg) (usps : UspsState) :
    UspsState × Bool :=
  let d := parse_usps_delivered m.subject year
  let dash := if d.dashboard_url ≠ "" then d.dashboard_url
    else if usps.dashboard_url ≠ "" then usps.dashboard_url else DASHBOARD_URL
  let rec0 : DeliveredRecord :=
    { subject := d.subject
      delivered := d.delivered
      date_label := d.date_label
      month := d.month
      day := d.day
      year := d.year
      dashboard_url := dash }
  ({ usps with
      subject := m.subject
      type := "delivered"
      dashboard_url := dash
      last_delivered := some rec0 }, true)

/-- `handle_usps_digest(msg, usps)`: overwrite every digest field with the
fresh extraction (the parse record always carries all keys, so none of the
`get` fallbacks to prior state fire); `last_delivered` untouched. -/
def handle_usps_digest (m : RouterMsg) (usps : UspsState) : UspsState × Bool :=
  let p := parse_usps_digest m.digestHtml m.digestText m.imgs
  let du := if p.dashboard_url ≠ "" then p.dashboard_url else usps.dashboard_url
  ({ usps with
      subject := m.subject
      type := "digest"
      mail_expected := some p.mail_expected
      pkgs_expected := some p.pkgs_expected
      mail_from := p.mail_from
      pkgs_from := p.pkgs_from
      dashboard_url := du
      buckets := p.buckets
      mail_images := p.mail_images
      images := p.mail_images.urls }, true)

/-! ## Message router (`imap_client.py`) -/

/-- Amazon sender test: `"amazon" in frm or "shipment-tracking@amazon" in frm`
(on the casefolded `From` header). -/
def amazonFrm (frm : String) : Bool :=
  hasSub frm "amazon" || hasSub frm "shipment-tracking@amazon"

/-- USPS sender test (`is_usps`, on the casefolded `From` header). -/
def uspsFrm (frm : String) : Bool :=
  hasSub frm "informeddelivery" || hasSub frm "email.informeddelivery.usps.com" ||
  hasSub frm "usps informed delivery" || hasSub frm "uspsinformeddelivery@" ||
  (hasSub frm "usps" && hasSub frm "delivery")

/-- USPS Delivered subject test (on the casefolded subject). -/
def deliveredSubj (subj : String) : Bool :=
  hasSub subj "your mail was delivered" || hasSub subj "mail delivery notification" ||
  hasSub subj "mailpiece delivered" || hasSub subj "mail piece delivered" ||
  startsWithStr subj "delivered" || endsWithStr subj "delivered"

/-- USPS Daily Digest subject test (on the casefolded subject). -/
def digestSubj (subj : String) : Bool :=
  hasSub subj "daily digest" || hasSub subj "ready to view" ||
  hasSub subj "informed delivery" || hasSub subj "coming to you soon"

/-- The two per-pass routing flags. -/
structure RouterFlags where
  got_usps_digest : Bool
  got_usps_delivered : Bool
deriving DecidableEq, Repr

/-- The accumulated `{usps, amazon}` payload. -/
structure RouterData where
  usps : UspsState
  amazon : AmazonState
deriving DecidableEq, Repr

/-- `process_message(parsed, data, flags)`: classify by sender/subject and
dispatch to the matching merger, honouring the per-pass gates. -/
def process_message (year : Nat) (m : RouterMsg) (data : RouterData)
    (flags : RouterFlags) : RouterData × RouterFlags :=
  let subj := lowerStr m.subject
  let frm := lowerStr m.frm
  if amazonFrm frm then
    let r := handle_amazon m.amz data.amazon
    (if r.2 then { data with amazon := r.1 } else data, flags)
  else if uspsFrm frm then
    if deliveredSubj subj then
      if flags.got_usps_delivered then (data, flags)
      else
        ({ data with usps := (handle_usps_delivered year m data.usps).1 },
         { flags with got_usps_delivered := true })
    else if digestSubj subj then
      if flags.got_usps_digest then (data, flags)
      else
        ({ data with usps := (handle_usps_digest m data.usps).1 },
         { flags with got_usps_digest := true })
    else (data, flags)
  else (data, flags)

/-- One poll pass over an already-ordered batch (the caller supplies the
messages newest first, as `for uid in reversed(pick)` does). -/
def processPass (year : Nat) :
    List RouterMsg → RouterData → RouterFlags → RouterData × RouterFlags
  | [], d, f => (d, f)
  | m :: rest, d, f =>
      let r := process_message year m d f
      processPass year rest r.1 r.2

/-- The fresh per-pass flags. -/
def initFlags : RouterFlags := ⟨false, false⟩

/-- A message the router merges as USPS Delivered. -/
def qualifiesDelivered (m : RouterMsg) : Bool :=
  !amazonFrm (lowerStr m.frm) && uspsFrm (lowerStr m.frm) &&
    deliveredSubj (lowerStr m.subject)

/-- A message the router merges as USPS Digest (Delivered is checked first). -/
def qualifiesDigest (m : RouterMsg) : Bool :=
  !amazonFrm (lowerStr m.frm) && uspsFrm (lowerStr m.frm) &&
    !deliveredSubj (lowerStr m.subject) && digestSubj (lowerStr m.subject)

/-- The digest-only sub-tree of the USPS state: `mail_expected`,
`pkgs_expected`, `mail_from`, `pkgs_from`, `buckets`, `mail_images`, `images`. -/
def digestView (u : UspsState) :
    Option Nat × Option Nat × List String × List String × Buckets × ImageSet ×
      List String :=
  (u.mail_expected, u.pkgs_expected, u.mail_from, u.pkgs_from, u.buckets,
   u.mail_images, u.images)

/-! ## Concrete inputs for counterexamples and witnesses -/

/-- A digest body whose header counter announces 1 mailpiece while the
structured campaign spans list 2 sender names. -/
def c1Html : String :=
  "<span id=\"bg-total-mailpieces\">1</span> <span id=\"campaign-from-span-id\">Alice</span> <span id=\"campaign-from-span-id\">Bob</span>"

/-- A digest body whose awaiting-from-sender section declares `7 item(s)` with
five listed senders, while another section contributes a sixth sender name to
`pkgs_from`. -/
def c8Html : String :=
  "Expected Today FROM: Zz | Awaiting From Sender 7 item(s) FROM: Aa | FROM: Bb | FROM: Cc | FROM: Dd | FROM: Ee"

/-- The spec's concrete bucket-segment scenario. -/
def c9seg : String := "2 item(s)\nFROM: Acme Corp\nFROM: Beta Inc"

/-- The Amazon view of the dual-matching message below. -/
def c10amz : AmazonMsg :=
  { extraction := { subject := "Order", event := "shipped", items := [], track_url := ""
                    order_id := "", shipment_id := "", package_index := "", eta := "" }
    ts := 1, safeSubject := "Order" }

/-- A message whose `From` header contains both `amazon` and
`informeddelivery`. -/
def c10msg : RouterMsg :=
  { frm := "amazon-informeddelivery@example.com"
    subject := "Your order update"
    amz := c10amz
    digestHtml := "", digestText := "", imgs := emptyImages }

/-- An empty accumulated payload. -/
def c10data : RouterData := ⟨emptyUsps, emptyAmazon⟩

end MiniMail

namespace MiniMail

/-! ## Amazon merge lemmas and theorems -/

lemma handle_amazon_stale (m : AmazonMsg) (s : AmazonState) (h : m.ts < s.ts) :
    handle_amazon m s = (s, false) := by
  simp [handle_amazon, h]

lemma handle_amazon_stamp (m : AmazonMsg) (s : AmazonState) (h : ¬ m.ts < s.ts)
    (hc : m.ts ≠ 0 ∧ m.ts ≠ s.ts) :
    handle_amazon m s =
      (backfillSubject { mergeFields s m.extraction with ts := m.ts } m.safeSubject,
       true) := by
  simp only [handle_amazon, if_neg h, if_pos hc]

lemma handle_amazon_nostamp (m : AmazonMsg) (s : AmazonState) (h : ¬ m.ts < s.ts)
    (hc : ¬ (m.ts ≠ 0 ∧ m.ts ≠ s.ts)) :
    handle_amazon m s =
      (backfillSubject (mergeFields s m.extraction) m.safeSubject,
       anyDelta s m.extraction) := by
  simp only [handle_amazon, if_neg h, if_neg hc]

lemma fieldWrite_self (x v : String) : fieldWrite (fieldWrite x v) v = fieldWrite x v := by
  by_cases h : v = "" <;> simp [fieldWrite, h]

lemma listWrite_self (x v : List String) : listWrite (listWrite x v) v = listWrite x v := by
  by_cases h : v = [] <;> simp [listWrite, h]

lemma backfillSubject_ts (s : AmazonState) (subj : String) :
    (backfillSubject s subj).ts = s.ts := by
  unfold backfillSubject; split <;> rfl

lemma backfillSubject_idem (s : AmazonState) (subj : String) :
    backfillSubject (backfillSubject s subj) subj = backfillSubject s subj := by
  by_cases hx : s.subject = ""
  · by_cases hs : subj = "" <;> simp [backfillSubject, hx, hs]
  · simp [backfillSubject, hx]

lemma mergeFields_ts_shift (s : AmazonState) (a : AmazonExtraction) (q : ℚ) :
    { mergeFields s a with ts := q } = mergeFields { s with ts := q } a := rfl

lemma mergeFields_stable (s : AmazonState) (a : AmazonExtraction) (subj : String) :
    mergeFields (backfillSubject (mergeFields s a) subj) a
      = backfillSubject (mergeFields s a) subj := by
  by_cases hbf : (mergeFields s a).subject = ""
  · have ha : a.subject = "" := by
      by_cases ha' : a.subject = ""
      · exact ha'
      · exact absurd (by simpa [mergeFields, fieldWrite, ha'] using hbf) ha'
    have hrw : backfillSubject (mergeFields s a) subj
        = { mergeFields s a with subject := subj } := by
      simp [backfillSubject, hbf]
    rw [hrw]
    simp only [mergeFields, AmazonState.mk.injEq]
    refine ⟨?_, ?_, ?_, ?_, ?_, ?_, ?_, ?_, ?_⟩
    · simp [fieldWrite, ha]
    · exact fieldWrite_self _ _
    · exact listWrite_self _ _
    · exact fieldWrite_self _ _
    · exact fieldWrite_self _ _
    · exact fieldWrite_self _ _
    · exact fieldWrite_self _ _
    · exact fieldWrite_self _ _
    · trivial
  · have hrw : backfillSubject (mergeFields s a) subj = mergeFields s a := by
      simp [backfillSubject, hbf]
    rw [hrw]
    simp only [mergeFields, AmazonState.mk.injEq]
    refine ⟨?_, ?_, ?_, ?_, ?_, ?_, ?_, ?_, ?_⟩
    · exact fieldWrite_self _ _
    · exact fieldWrite_self _ _
    · exact listWrite_self _ _
    · exact fieldWrite_self _ _
    · exact fieldWrite_self _ _
    · exact fieldWrite_self _ _
    · exact fieldWrite_self _ _
    · exact fieldWrite_self _ _
    · trivial

/-- Claim C3: across any Amazon merge, the stored `ts` never decreases, and
tracked fields can be overwritten only by a message at least as fresh as the
stored `ts` (a strictly older message changes nothing at all). -/
theorem amazon_ts_monotone (m : AmazonMsg) (s : AmazonState) :
    s.ts ≤ (handle_amazon m s).1.ts ∧
      (s.ts ≤ m.ts ∨ (handle_amazon m s).1 = s) := by
  by_cases h : m.ts < s.ts
  · rw [handle_amazon_stale m s h]
    exact ⟨le_refl _, Or.inr rfl⟩
  · have hle : s.ts ≤ m.ts := le_of_not_lt h
    refine ⟨?_, Or.inl hle⟩
    by_cases hc : m.ts ≠ 0 ∧ m.ts ≠ s.ts
    · rw [handle_amazon_stamp m s h hc]
      simpa [backfillSubject_ts] using hle
    · rw [handle_amazon_nostamp m s h hc]
      simp [backfillSubject_ts, mergeFields]

lemma handle_amazon_ts_ge (m : AmazonMsg) (s : AmazonState) (h : 0 < m.ts) :
    m.ts ≤ (handle_amazon m s).1.ts := by
  by_cases hst : m.ts < s.ts
  · rw [handle_amazon_stale m s hst]; exact le_of_lt hst
  · by_cases hc : m.ts ≠ 0 ∧ m.ts ≠ s.ts
    · rw [handle_amazon_stamp m s hst hc]
      simp [backfillSubject_ts]
    · have hts : m.ts = s.ts := by
        rcases not_and_or.mp hc with h' | h'
        · exact absurd (not_not.mp h') (ne_of_gt h)
        · exact not_not.mp h'
      rw [handle_amazon_nostamp m s hst hc]
      simp [backfillSubject_ts, mergeFields, ← hts]

/-- Claim C5: a message strictly older than the stored `ts` is rejected
wholesale — the returned state is the prior state and the updated flag is
`false` (a deliberate no-op, not an error). -/
theorem amazon_stale_no_update (m : AmazonMsg) (s : AmazonState) (h : m.ts < s.ts) :
    handle_amazon m s = (s, false) :=
  handle_amazon_stale m s h

/-- Witness for C5 at a concrete stale message. -/
theorem amazon_stale_no_update_witness :
    c5msg.ts < c5state.ts ∧ handle_amazon c5msg c5state = (c5state, false) :=
  ⟨by decide, amazon_stale_no_update c5msg c5state (by decide)⟩

/-- Claim C6: merging the same Amazon message twice in a row yields exactly the
state produced by the first merge (no field changes, `ts` unchanged). -/
theorem amazon_merge_idempotent (m : AmazonMsg) (s : AmazonState) :
    (handle_amazon m (handle_amazon m s).1).1 = (handle_amazon m s).1 := by
  by_cases h : m.ts < s.ts
  · rw [handle_amazon_stale m s h]
    simpa using (congrArg Prod.fst (handle_amazon_stale m s h))
  · by_cases hc : m.ts ≠ 0 ∧ m.ts ≠ s.ts
    · rw [handle_amazon_stamp m s h hc]
      set T := backfillSubject { mergeFields s m.extraction with ts := m.ts } m.safeSubject
        with hT
      have hTts : T.ts = m.ts := by rw [hT, backfillSubject_ts]
      have h2 : ¬ m.ts < T.ts := by rw [hTts]; exact lt_irrefl _
      have hc2 : ¬ (m.ts ≠ 0 ∧ m.ts ≠ T.ts) := by
        rintro ⟨-, hne⟩; exact hne hTts.symm
      rw [handle_amazon_nostamp m T h2 hc2]
      show backfillSubject (mergeFields T m.extraction) m.safeSubject = T
      rw [hT, mergeFields_ts_shift, mergeFields_stable, ← mergeFields_ts_shift,
        backfillSubject_idem]
    · rw [handle_amazon_nostamp m s h hc]
      set T := backfillSubject (mergeFields s m.extraction) m.safeSubject with hT
      have hTts : T.ts = s.ts := by rw [hT, backfillSubject_ts]; rfl
      have h2 : ¬ m.ts < T.ts := by rw [hTts]; exact h
      have hc2 : ¬ (m.ts ≠ 0 ∧ m.ts ≠ T.ts) := by rw [hTts]; exact hc
      rw [handle_amazon_nostamp m T h2 hc2]
      show backfillSubject (mergeFields T m.extraction) m.safeSubject = T
      rw [hT, mergeFields_stable, backfillSubject_idem]

/-- Counterexample to C4 as stated: with `t1 < t2`, merging `t2` then `t1`
does NOT equal "merge `t1`, then overwrite with `t2`'s non-empty fields" —
the sandwiched `t1` is rejected outright, so its ETA never survives, while
the spec's right-hand side keeps it. -/
theorem amazon_out_of_order_counterexample :
    c4msg1.ts < c4msg2.ts ∧
      (handle_amazon c4msg1 (handle_amazon c4msg2 emptyAmazon).1).1.eta ≠
        (overwriteNonEmptyFields (handle_amazon c4msg1 emptyAmazon).1
          c4msg2.extraction).eta := by
  decide

/-- Claim C4 (amended): for timestamps `t1 < t2` with `t2 > 0`, merging `t2`
then `t1` yields exactly the state after merging `t2` alone — the stale `t1`
merge is a complete no-op, so `t1` never overrides `t2`'s data. -/
theorem amazon_out_of_order (m1 m2 : AmazonMsg) (s : AmazonState)
    (h2 : 0 < m2.ts) (h12 : m1.ts < m2.ts) :
    handle_amazon m1 (handle_amazon m2 s).1 = ((handle_amazon m2 s).1, false) :=
  handle_amazon_stale m1 _ (lt_of_lt_of_le h12 (handle_amazon_ts_ge m2 s h2))

/-- Witness for C4 (amended) at concrete messages. -/
theorem amazon_out_of_order_witness :
    0 < c4msg2.ts ∧ c4msg1.ts < c4msg2.ts ∧
      handle_amazon c4msg1 (handle_amazon c4msg2 emptyAmazon).1
        = ((handle_amazon c4msg2 emptyAmazon).1, false) :=
  ⟨by decide, by decide, amazon_out_of_order c4msg1 c4msg2 emptyAmazon (by decide) (by decide)⟩

end MiniMail

namespace MiniMail

/-! ## USPS handler frame lemmas and theorems -/

lemma delivered_frame (year : Nat) (m : RouterMsg) (u : UspsState) :
    digestView (handle_usps_delivered year m u).1 = digestView u := rfl

lemma digest_frame (m : RouterMsg) (u : UspsState) :
    (handle_usps_digest m u).1.last_delivered = u.last_delivered := rfl

/-- Claim C7: a Delivered merge leaves every digest field (`mail_expected`,
`pkgs_expected`, `mail_from`, `pkgs_from`, `buckets`, `mail_images`, `images`)
unchanged, and a Digest merge leaves `last_delivered` unchanged — the two
sub-trees are independent. -/
theorem usps_merge_frame (year : Nat) (m : RouterMsg) (u : UspsState) :
    digestView (handle_usps_delivered year m u).1 = digestView u ∧
      (handle_usps_digest m u).1.last_delivered = u.last_delivered :=
  ⟨delivered_frame year m u, digest_frame m u⟩

/-- Claim C10: the router tests the Amazon classification first, so any
message whose casefolded `From` contains `"amazon"` is dispatched to the
Amazon merger — the USPS state and the routing flags are untouched even when
the `From` also matches USPS sender patterns. -/
theorem router_amazon_priority (year : Nat) (m : RouterMsg) (d : RouterData)
    (f : RouterFlags) (h : hasSub (lowerStr m.frm) "amazon" = true) :
    process_message year m d f =
      ((if (handle_amazon m.amz d.amazon).2
        then { d with amazon := (handle_amazon m.amz d.amazon).1 } else d), f) ∧
      (process_message year m d f).1.usps = d.usps ∧
      (process_message year m d f).2 = f := by
  have ha : amazonFrm (lowerStr m.frm) = true := by
    simp [amazonFrm, h]
  refine ⟨by simp [process_message, ha], ?_, ?_⟩ <;>
    simp only [process_message, ha, if_true] <;> split <;> rfl

/-- Witness for C10 at a `From` header matching both carriers. -/
theorem router_amazon_priority_witness :
    process_message 2025 c10msg c10data initFlags =
      ((if (handle_amazon c10msg.amz c10data.amazon).2
        then { c10data with amazon := (handle_amazon c10msg.amz c10data.amazon).1 }
        else c10data), initFlags) ∧
      (process_message 2025 c10msg c10data initFlags).1.usps = c10data.usps ∧
      (process_message 2025 c10msg c10data initFlags).2 = initFlags :=
  router_amazon_priority 2025 c10msg c10data initFlags (by decide)

/-! ## Bucket computation (C9) -/

/-- Claim C9: `(count, names)` for a bucket segment follows the stated
priority — explicit `N item(s)` counter first (count `N`, up to five
deduplicated strict `FROM:` names), else the deduplicated strict `FROM:`
names (count = their number), else the count of `9`-leading 16-plus-digit
tokens with no names; and the spec's concrete segment evaluates to
`(2, ["Acme Corp", "Beta Inc"])`. -/
theorem bucket_count_priority :
    (∀ seg : String,
      _bucket_count_and_names seg =
        match countItemsSearch seg.toList with
        | some n => (n, (_dedup_keep_order (fromNames seg.toList)).take 5)
        | none =>
            if fromNames seg.toList = [] then ((trackMatches seg.toList).length, [])
            else ((_dedup_keep_order (fromNames seg.toList)).length,
                  (_dedup_keep_order (fromNames seg.toList)).take 5)) ∧
    _bucket_count_and_names c9seg = (2, ["Acme Corp", "Beta Inc"]) := by
  exact ⟨fun seg => rfl, by decide⟩

/-! ## Count-parity padding (C1) -/

lemma padMailFrom_ge (me : Nat) (mf : List String) :
    me ≤ (padMailFrom me mf).length := by
  by_cases h : mf.length < me
  · simp only [padMailFrom, if_pos h, List.length_append, List.length_replicate]
    omega
  · simp only [padMailFrom, if_neg h]
    omega

set_option maxRecDepth 16384 in
/-- Counterexample to C1 as stated: a digest whose header counter says 1
mailpiece but whose campaign spans yield 2 sender names ends with
`len(mail_from) = 2 ≠ 1 = mail_expected` even though `mail_expected > 0` —
the extractor pads up but never truncates. -/
theorem mail_from_padding_counterexample :
    0 < (parse_usps_digest c1Html "" emptyImages).mail_expected ∧
      (parse_usps_digest c1Html "" emptyImages).mail_from.length ≠
        (parse_usps_digest c1Html "" emptyImages).mail_expected := by
  decide

/-- Claim C1 (amended): after any digest extraction,
`len(mail_from) ≥ mail_expected` — the `"Envelope"` padding fills the gap when
`mail_expected` exceeds the number of extracted names, and equality holds
exactly in that direction; the list is never truncated down to the count. -/
theorem mail_from_padding_law (html text : String) (imgs : ImageSet) :
    (parse_usps_digest html text imgs).mail_expected ≤
      (parse_usps_digest html text imgs).mail_from.length := by
  simp only [parse_usps_digest]
  exact padMailFrom_ge _ _

/-! ## Bucket sample-name caps (C8) -/

lemma bucket_names_le5 (seg : String) : (_bucket_count_and_names seg).2.length ≤ 5 := by
  simp only [_bucket_count_and_names]
  split
  · simp only [List.length_take]
    omega
  · split
    · simp
    · simp only [List.length_take]
      omega

lemma bucketOf_le5 (seg : List Char) : (bucketOf seg).frm.length ≤ 5 :=
  bucket_names_le5 _

lemma enrichLoop_le (m : Nat) (pkgs : List String) :
    ∀ names : List String, m ≤ 5 → names.length ≤ 5 →
      (enrichLoop m names pkgs).length ≤ 6 := by
  induction pkgs with
  | nil =>
      intro names _ hn
      simpa [enrichLoop] using le_trans hn (by omega)
  | cons nm rest ih =>
      intro names hm hn
      simp only [enrichLoop]
      by_cases hc : names.contains nm = true
      · rw [if_pos hc]
        by_cases hb : m ≤ names.length
        · rw [if_pos hb]
          omega
        · rw [if_neg hb]
          exact ih names hm hn
      · rw [if_neg hc]
        have hlen : (names ++ [nm]).length = names.length + 1 := by simp
        by_cases hb : m ≤ (names ++ [nm]).length
        · rw [if_pos hb]
          omega
        · rw [if_neg hb]
          apply ih _ hm
          omega

lemma enrichAwaiting_today (b : Buckets) (pkgs : List String) :
    (enrichAwaiting b pkgs).expected_today = b.expected_today := by
  simp only [enrichAwaiting]; split <;> rfl

lemma enrichAwaiting_days12 (b : Buckets) (pkgs : List String) :
    (enrichAwaiting b pkgs).expected_1_2_days = b.expected_1_2_days := by
  simp only [enrichAwaiting]; split <;> rfl

lemma enrichAwaiting_outbound (b : Buckets) (pkgs : List String) :
    (enrichAwaiting b pkgs).outbound = b.outbound := by
  simp only [enrichAwaiting]; split <;> rfl

lemma enrichAwaiting_aw_le (b : Buckets) (pkgs : List String)
    (h5 : b.awaiting_from_sender.frm.length ≤ 5) :
    (enrichAwaiting b pkgs).awaiting_from_sender.frm.length ≤ 6 := by
  simp only [enrichAwaiting]
  split
  · exact enrichLoop_le _ _ _ (min_le_right _ 5) h5
  · exact le_trans h5 (by omega)

set_option maxRecDepth 16384 in
/-- Counterexample to C8 as stated: on a digest whose awaiting section
declares `7 item(s)` with five listed names while another section supplies a
sixth `pkgs_from` name, the enrichment appends before testing its stop
condition, leaving the `awaiting_from_sender` bucket with 6 names. -/
theorem bucket_cap_counterexample :
    ¬ ((parse_usps_digest c8Html "" emptyImages).buckets.awaiting_from_sender.frm.length
        ≤ 5) := by
  decide

/-- Claim C8 (amended): each non-enriched bucket carries at most 5 sample
names; the `awaiting_from_sender` bucket carries at most 6 after enrichment —
the backfill loop appends a candidate before testing the `min(count, 5)` stop
condition, so a bucket that already holds 5 names and declares a count above 5
can end with one extra name. -/
theorem bucket_cap (html text : String) (imgs : ImageSet) :
    (parse_usps_digest html text imgs).buckets.expected_today.frm.length ≤ 5 ∧
    (parse_usps_digest html text imgs).buckets.expected_1_2_days.frm.length ≤ 5 ∧
    (parse_usps_digest html text imgs).buckets.outbound.frm.length ≤ 5 ∧
    (parse_usps_digest html text imgs).buckets.awaiting_from_sender.frm.length ≤ 6 := by
  refine ⟨?_, ?_, ?_, ?_⟩ <;> simp only [parse_usps_digest]
  · rw [enrichAwaiting_today]
    exact bucketOf_le5 _
  · rw [enrichAwaiting_days12]
    exact bucketOf_le5 _
  · rw [enrichAwaiting_outbound]
    exact bucketOf_le5 _
  · exact enrichAwaiting_aw_le _ _ (bucketOf_le5 _)

end MiniMail

namespace MiniMail

/-! ## Router pass lemmas and theorem (C2) -/

lemma pm_amazon (year : Nat) (m : RouterMsg) (d : RouterData) (f : RouterFlags)
    (ha : amazonFrm (lowerStr m.frm) = true) :
    process_message year m d f =
      ((if (handle_amazon m.amz d.amazon).2
        then { d with amazon := (handle_amazon m.amz d.amazon).1 } else d), f) := by
  simp [process_message, ha]

lemma pm_not_usps (year : Nat) (m : RouterMsg) (d : RouterData) (f : RouterFlags)
    (ha : amazonFrm (lowerStr m.frm) = false)
    (hu : uspsFrm (lowerStr m.frm) = false) :
    process_message year m d f = (d, f) := by
  simp [process_message, ha, hu]

lemma pm_delivered_open (year : Nat) (m : RouterMsg) (d : RouterData) (f : RouterFlags)
    (ha : amazonFrm (lowerStr m.frm) = false)
    (hu : uspsFrm (lowerStr m.frm) = true)
    (hd : deliveredSubj (lowerStr m.subject) = true)
    (hf : f.got_usps_delivered = false) :
    process_message year m d f =
      ({ d with usps := (handle_usps_delivered year m d.usps).1 },
       { f with got_usps_delivered := true }) := by
  simp [process_message, ha, hu, hd, hf]

lemma pm_delivered_closed (year : Nat) (m : RouterMsg) (d : RouterData) (f : RouterFlags)
    (ha : amazonFrm (lowerStr m.frm) = false)
    (hu : uspsFrm (lowerStr m.frm) = true)
    (hd : deliveredSubj (lowerStr m.subject) = true)
    (hf : f.got_usps_delivered = true) :
    process_message year m d f = (d, f) := by
  simp [process_message, ha, hu, hd, hf]

lemma pm_digest_open (year : Nat) (m : RouterMsg) (d : RouterData) (f : RouterFlags)
    (ha : amazonFrm (lowerStr m.frm) = false)
    (hu : uspsFrm (lowerStr m.frm) = true)
    (hd : deliveredSubj (lowerStr m.subject) = false)
    (hg : digestSubj (lowerStr m.subject) = true)
    (hf : f.got_usps_digest = false) :
    process_message year m d f =
      ({ d with usps := (handle_usps_digest m d.usps).1 },
       { f with got_usps_digest := true }) := by
  simp [process_message, ha, hu, hd, hg, hf]

lemma pm_digest_closed (year : Nat) (m : RouterMsg) (d : RouterData) (f : RouterFlags)
    (ha : amazonFrm (lowerStr m.frm) = false)
    (hu : uspsFrm (lowerStr m.frm) = true)
    (hd : deliveredSubj (lowerStr m.subject) = false)
    (hg : digestSubj (lowerStr m.subject) = true)
    (hf : f.got_usps_digest = true) :
    process_message year m d f = (d, f) := by
  simp [process_message, ha, hu, hd, hg, hf]

lemma pm_neither (year : Nat) (m : RouterMsg) (d : RouterData) (f : RouterFlags)
    (ha : amazonFrm (lowerStr m.frm) = false)
    (hu : uspsFrm (lowerStr m.frm) = true)
    (hd : deliveredSubj (lowerStr m.subject) = false)
    (hg : digestSubj (lowerStr m.subject) = false) :
    process_message year m d f = (d, f) := by
  simp [process_message, ha, hu, hd, hg]

lemma step_del_flag_closed (year : Nat) (m : RouterMsg) (d : RouterData)
    (f : RouterFlags) (hf : f.got_usps_delivered = true) :
    (process_message year m d f).1.usps.last_delivered = d.usps.last_delivered ∧
      (process_message year m d f).2.got_usps_delivered = true := by
  by_cases ha : amazonFrm (lowerStr m.frm) = true
  · rw [pm_amazon year m d f ha]
    exact ⟨by split <;> rfl, hf⟩
  · have ha' : amazonFrm (lowerStr m.frm) = false := by simpa using ha
    by_cases hu : uspsFrm (lowerStr m.frm) = true
    · by_cases hd : deliveredSubj (lowerStr m.subject) = true
      · rw [pm_delivered_closed year m d f ha' hu hd hf]
        exact ⟨rfl, hf⟩
      · have hd' : deliveredSubj (lowerStr m.subject) = false := by simpa using hd
        by_cases hg : digestSubj (lowerStr m.subject) = true
        · by_cases hfd : f.got_usps_digest = true
          · rw [pm_digest_closed year m d f ha' hu hd' hg hfd]
            exact ⟨rfl, hf⟩
          · have hfd' : f.got_usps_digest = false := by simpa using hfd
            rw [pm_digest_open year m d f ha' hu hd' hg hfd']
            exact ⟨digest_frame m d.usps, hf⟩
        · have hg' : digestSubj (lowerStr m.subject) = false := by simpa using hg
          rw [pm_neither year m d f ha' hu hd' hg']
          exact ⟨rfl, hf⟩
    · have hu' : uspsFrm (lowerStr m.frm) = false := by simpa using hu
      rw [pm_not_usps year m d f ha' hu']
      exact ⟨rfl, hf⟩

lemma step_dig_flag_closed (year : Nat) (m : RouterMsg) (d : RouterData)
    (f : RouterFlags) (hf : f.got_usps_digest = true) :
    digestView (process_message year m d f).1.usps = digestView d.usps ∧
      (process_message year m d f).2.got_usps_digest = true := by
  by_cases ha : amazonFrm (lowerStr m.frm) = true
  · rw [pm_amazon year m d f ha]
    exact ⟨by split <;> rfl, hf⟩
  · have ha' : amazonFrm (lowerStr m.frm) = false := by simpa using ha
    by_cases hu : uspsFrm (lowerStr m.frm) = true
    · by_cases hd : deliveredSubj (lowerStr m.subject) = true
      · by_cases hfd : f.got_usps_delivered = true
        · rw [pm_delivered_closed year m d f ha' hu hd hfd]
          exact ⟨rfl, hf⟩
        · have hfd' : f.got_usps_delivered = false := by simpa using hfd
          rw [pm_delivered_open year m d f ha' hu hd hfd']
          exact ⟨delivered_frame year m d.usps, hf⟩
      · have hd' : deliveredSubj (lowerStr m.subject) = false := by simpa using hd
        by_cases hg : digestSubj (lowerStr m.subject) = true
        · rw [pm_digest_closed year m d f ha' hu hd' hg hf]
          exact ⟨rfl, hf⟩
        · have hg' : digestSubj (lowerStr m.subject) = false := by simpa using hg
          rw [pm_neither year m d f ha' hu hd' hg']
          exact ⟨rfl, hf⟩
    · have hu' : uspsFrm (lowerStr m.frm) = false := by simpa using hu
      rw [pm_not_usps year m d f ha' hu']
      exact ⟨rfl, hf⟩

lemma step_nonqual_del (year : Nat) (m : RouterMsg) (d : RouterData)
    (f : RouterFlags) (hq : qualifiesDelivered m = false) :
    (process_message year m d f).1.usps.last_delivered = d.usps.last_delivered ∧
      (process_message year m d f).2.got_usps_delivered = f.got_usps_delivered := by
  by_cases ha : amazonFrm (lowerStr m.frm) = true
  · rw [pm_amazon year m d f ha]
    exact ⟨by split <;> rfl, rfl⟩
  · have ha' : amazonFrm (lowerStr m.frm) = false := by simpa using ha
    by_cases hu : uspsFrm (lowerStr m.frm) = true
    · by_cases hd : deliveredSubj (lowerStr m.subject) = true
      · exfalso
        have : qualifiesDelivered m = true := by
          simp [qualifiesDelivered, ha', hu, hd]
        rw [this] at hq
        exact Bool.true_eq_false.mp hq
      · have hd' : deliveredSubj (lowerStr m.subject) = false := by simpa using hd
        by_cases hg : digestSubj (lowerStr m.subject) = true
        · by_cases hfd : f.got_usps_digest = true
          · rw [pm_digest_closed year m d f ha' hu hd' hg hfd]
            exact ⟨rfl, rfl⟩
          · have hfd' : f.got_usps_digest = false := by simpa using hfd
            rw [pm_digest_open year m d f ha' hu hd' hg hfd']
            exact ⟨digest_frame m d.usps, rfl⟩
        · have hg' : digestSubj (lowerStr m.subject) = false := by simpa using hg
          rw [pm_neither year m d f ha' hu hd' hg']
          exact ⟨rfl, rfl⟩
    · have hu' : uspsFrm (lowerStr m.frm) = false := by simpa using hu
      rw [pm_not_usps year m d f ha' hu']
      exact ⟨rfl, rfl⟩

lemma step_nonqual_dig (year : Nat) (m : RouterMsg) (d : RouterData)
    (f : RouterFlags) (hq : qualifiesDigest m = false) :
    digestView (process_message year m d f).1.usps = digestView d.usps ∧
      (process_message year m d f).2.got_usps_digest = f.got_usps_digest := by
  by_cases ha : amazonFrm (lowerStr m.frm) = true
  · rw [pm_amazon year m d f ha]
    exact ⟨by split <;> rfl, rfl⟩
  · have ha' : amazonFrm (lowerStr m.frm) = false := by simpa using ha
    by_cases hu : uspsFrm (lowerStr m.frm) = true
    · by_cases hd : deliveredSubj (lowerStr m.subject) = true
      · by_cases hfd : f.got_usps_delivered = true
        · rw [pm_delivered_closed year m d f ha' hu hd hfd]
          exact ⟨rfl, rfl⟩
        · have hfd' : f.got_usps_delivered = false := by simpa using hfd
          rw [pm_delivered_open year m d f ha' hu hd hfd']
          exact ⟨delivered_frame year m d.usps, rfl⟩
      · have hd' : deliveredSubj (lowerStr m.subject) = false := by simpa using hd
        by_cases hg : digestSubj (lowerStr m.subject) = true
        · exfalso
          have : qualifiesDigest m = true := by
            simp [qualifiesDigest, ha', hu, hd', hg]
          rw [this] at hq
          exact Bool.true_eq_false.mp hq
        · have hg' : digestSubj (lowerStr m.subject) = false := by simpa using hg
          rw [pm_neither year m d f ha' hu hd' hg']
          exact ⟨rfl, rfl⟩
    · have hu' : uspsFrm (lowerStr m.frm) = false := by simpa using hu
      rw [pm_not_usps year m d f ha' hu']
      exact ⟨rfl, rfl⟩

lemma parse_delivered_dash (s : String) (y : Nat) :
    (parse_usps_delivered s y).dashboard_url = DASHBOARD_URL := by
  simp only [parse_usps_delivered]
  split <;> rfl

lemma handle_delivered_lastDel_eq (year : Nat) (m : RouterMsg) (u : UspsState) :
    (handle_usps_delivered year m u).1.last_delivered =
      some { subject := (parse_usps_delivered m.subject year).subject
             delivered := (parse_usps_delivered m.subject year).delivered
             date_label := (parse_usps_delivered m.subject year).date_label
             month := (parse_usps_delivered m.subject year).month
             day := (parse_usps_delivered m.subject year).day
             year := (parse_usps_delivered m.subject year).year
             dashboard_url := DASHBOARD_URL } := by
  have hne : DASHBOARD_URL ≠ "" := by decide
  simp only [handle_usps_delivered, parse_delivered_dash, if_pos hne]

lemma pass_del_closed (year : Nat) :
    ∀ (l : List RouterMsg) (d : RouterData) (f : RouterFlags),
      f.got_usps_delivered = true →
      (processPass year l d f).1.usps.last_delivered = d.usps.last_delivered := by
  intro l
  induction l with
  | nil => intro d f _; rfl
  | cons m rest ih =>
      intro d f hf
      simp only [processPass]
      obtain ⟨h1, h2⟩ := step_del_flag_closed year m d f hf
      rw [ih _ _ h2, h1]

lemma pass_dig_closed (year : Nat) :
    ∀ (l : List RouterMsg) (d : RouterData) (f : RouterFlags),
      f.got_usps_digest = true →
      digestView (processPass year l d f).1.usps = digestView d.usps := by
  intro l
  induction l with
  | nil => intro d f _; rfl
  | cons m rest ih =>
      intro d f hf
      simp only [processPass]
      obtain ⟨h1, h2⟩ := step_dig_flag_closed year m d f hf
      rw [ih _ _ h2, h1]

lemma pass_del_open (year : Nat) :
    ∀ (l : List RouterMsg) (d : RouterData) (f : RouterFlags),
      f.got_usps_delivered = false →
      (processPass year l d f).1.usps.last_delivered =
        (match l.find? qualifiesDelivered with
         | some m => (handle_usps_delivered year m emptyUsps).1.last_delivered
         | none => d.usps.last_delivered) := by
  intro l
  induction l with
  | nil => intro d f _; rfl
  | cons m rest ih =>
      intro d f hf
      by_cases hq : qualifiesDelivered m = true
      · obtain ⟨⟨ha, hu⟩, hd⟩ :
            ((!amazonFrm (lowerStr m.frm)) = true ∧ uspsFrm (lowerStr m.frm) = true) ∧
              deliveredSubj (lowerStr m.subject) = true := by
          simpa [qualifiesDelivered, Bool.and_eq_true] using hq
        have ha' : amazonFrm (lowerStr m.frm) = false := by simpa using ha
        simp only [processPass, List.find?, hq]
        rw [pm_delivered_open year m d f ha' hu hd hf]
        rw [pass_del_closed year rest _ _ rfl]
        show (handle_usps_delivered year m d.usps).1.last_delivered = _
        rw [handle_delivered_lastDel_eq, handle_delivered_lastDel_eq]
      · have hq' : qualifiesDelivered m = false := by simpa using hq
        simp only [processPass, List.find?, hq']
        obtain ⟨h1, h2⟩ := step_nonqual_del year m d f hq'
        rw [ih _ _ (h2.trans hf), h1]

lemma pass_dig_open (year : Nat) :
    ∀ (l : List RouterMsg) (d : RouterData) (f : RouterFlags),
      f.got_usps_digest = false →
      digestView (processPass year l d f).1.usps =
        (match l.find? qualifiesDigest with
         | some m => digestView (handle_usps_digest m emptyUsps).1
         | none => digestView d.usps) := by
  intro l
  induction l with
  | nil => intro d f _; rfl
  | cons m rest ih =>
      intro d f hf
      by_cases hq : qualifiesDigest m = true
      · obtain ⟨⟨⟨ha, hu⟩, hd⟩, hg⟩ :
            (((!amazonFrm (lowerStr m.frm)) = true ∧ uspsFrm (lowerStr m.frm) = true) ∧
              (!deliveredSubj (lowerStr m.subject)) = true) ∧
              digestSubj (lowerStr m.subject) = true := by
          simpa [qualifiesDigest, Bool.and_eq_true] using hq
        have ha' : amazonFrm (lowerStr m.frm) = false := by simpa using ha
        have hd' : deliveredSubj (lowerStr m.subject) = false := by simpa using hd
        simp only [processPass, List.find?, hq]
        rw [pm_digest_open year m d f ha' hu hd' hg hf]
        rw [pass_dig_closed year rest _ _ rfl]
        show digestView (handle_usps_digest m d.usps).1 = _
        rfl
      · have hq' : qualifiesDigest m = false := by simpa using hq
        simp only [processPass, List.find?, hq']
        obtain ⟨h1, h2⟩ := step_nonqual_dig year m d f hq'
        rw [ih _ _ (h2.trans hf), h1]

lemma step_both_closed (year : Nat) (m : RouterMsg) (d : RouterData) :
    (process_message year m d ⟨true, true⟩).1.usps = d.usps ∧
      (process_message year m d ⟨true, true⟩).2 = ⟨true, true⟩ := by
  by_cases ha : amazonFrm (lowerStr m.frm) = true
  · rw [pm_amazon year m d _ ha]
    exact ⟨by split <;> rfl, rfl⟩
  · have ha' : amazonFrm (lowerStr m.frm) = false := by simpa using ha
    by_cases hu : uspsFrm (lowerStr m.frm) = true
    · by_cases hd : deliveredSubj (lowerStr m.subject) = true
      · rw [pm_delivered_closed year m d _ ha' hu hd rfl]
        exact ⟨rfl, rfl⟩
      · have hd' : deliveredSubj (lowerStr m.subject) = false := by simpa using hd
        by_cases hg : digestSubj (lowerStr m.subject) = true
        · rw [pm_digest_closed year m d _ ha' hu hd' hg rfl]
          exact ⟨rfl, rfl⟩
        · have hg' : digestSubj (lowerStr m.subject) = false := by simpa using hg
          rw [pm_neither year m d _ ha' hu hd' hg']
          exact ⟨rfl, rfl⟩
    · have hu' : uspsFrm (lowerStr m.frm) = false := by simpa using hu
      rw [pm_not_usps year m d _ ha' hu']
      exact ⟨rfl, rfl⟩

/-- Claim C2: over a pass (the batch given newest message first, flags reset),
the USPS gates fire at most once per kind and on the first qualifying message
encountered — the final `last_delivered` record is exactly the one produced by
the first (most recent) qualifying Delivered message, the final digest fields
are exactly those produced by the first qualifying Digest message (each
independent of the state they merged into), later qualifying messages leave
the USPS state unchanged, and once both gates have fired no message can touch
the USPS state or the flags at all. -/
theorem router_gate_first_wins (year : Nat) :
    (∀ (m : RouterMsg) (d : RouterData),
      (process_message year m d ⟨true, true⟩).1.usps = d.usps ∧
        (process_message year m d ⟨true, true⟩).2 = ⟨true, true⟩) ∧
    (∀ (l : List RouterMsg) (d : RouterData),
      (processPass year l d initFlags).1.usps.last_delivered =
        (match l.find? qualifiesDelivered with
         | some m => (handle_usps_delivered year m emptyUsps).1.last_delivered
         | none => d.usps.last_delivered)) ∧
    (∀ (l : List RouterMsg) (d : RouterData),
      digestView (processPass year l d initFlags).1.usps =
        (match l.find? qualifiesDigest with
         | some m => digestView (handle_usps_digest m emptyUsps).1
         | none => digestView d.usps)) :=
  ⟨fun m d => step_both_closed year m d,
   fun l d => pass_del_open year l d initFlags rfl,
   fun l d => pass_dig_open year l d initFlags rfl⟩

end MiniMail
